import Mathlib

/-!
Shallow embedding of the boilerplate-gen service (a Next.js app whose API
routes live in `src/app/api/generate/route.ts` and `src/app/api/stats/route.ts`).

JavaScript strings are modelled as their character sequences (`List Char`);
JavaScript string methods (`trim`, `toLowerCase`, `toUpperCase`, `includes`)
are embedded as functions on `List Char`.  The Prisma `template` table is a
`List Template`, and database mutations are reified as `DbWrite` values so the
handler's effects can be inspected.  External services (Clerk auth, OpenAI,
Supabase storage) are oracles carried by an `Env` record: their results are
inputs to the handler, whose control flow is translated line by line from the
route source.
-/

set_option maxRecDepth 100000

namespace BoilerplateGen

/-- JavaScript `String.prototype.trim` on a character sequence: drop leading
and trailing whitespace. -/
def jsTrim (s : List Char) : List Char :=
  (((s.dropWhile Char.isWhitespace).reverse).dropWhile Char.isWhitespace).reverse

/-- JavaScript `String.prototype.toLowerCase` (ASCII fragment, matching the
characters the route manipulates). -/
def jsToLower (s : List Char) : List Char := s.map Char.toLower

/-- JavaScript `String.prototype.toUpperCase` (ASCII fragment). -/
def jsToUpper (s : List Char) : List Char := s.map Char.toUpper

/-- JavaScript `s.includes(sub)`: `sub` occurs contiguously inside `s`. -/
def jsIncludes (s sub : List Char) : Bool :=
  match s with
  | [] => sub.isPrefixOf ([] : List Char)
  | c :: t => sub.isPrefixOf (c :: t) || jsIncludes t sub

/-- `route.ts` line 342: `const cleanPrompt = prompt.trim().toLowerCase()`. -/
def cleanPrompt (prompt : List Char) : List Char := jsToLower (jsTrim prompt)

/-! ### The technology-rule dictionary (`TECH_RULES`, route.ts lines 194-314)

Keys appear in the source's insertion order, which is the order
`Object.keys(TECH_RULES).forEach` visits them. -/

def TECH_RULES : List (String × String) := [
  ("mongodb", "\n    - **NestJS (CRITICAL):** Use package '@nestjs/mongoose' AND 'mongoose'. Do NOT use 'nestjs-mongoose' (it does not exist).\n    - **Mongoose Config:** Do NOT use 'useNewUrlParser' or 'useUnifiedTopology' (deprecated).\n    - **Types:** Do NOT add '@types/mongoose' to package.json.\n    - **Non-JS:** Use official drivers (e.g., 'MongoDB.Driver' for C#, 'mongo-go-driver' for Go)."),
  ("postgres", "\n    - **Connection:** Ensure connection string uses 'postgresql://' protocol."),
  ("node", "\n    - **Docker:** Use 'COPY package*.json ./' (WITH WILDCARD).\n    - **Env:** Include 'dotenv'.\n    - **Structure:** Use 'src/' folder.\n    - **Dependencies (CRITICAL):** You MUST add '@types/node' to devDependencies if using TypeScript.\n    - **Scripts:** Ensure 'package.json' has a \"build\" script."),
  ("typescript", "\n    - **Config (CRITICAL):** 'tsconfig.json' MUST include:\n      \"experimentalDecorators\": true,\n      \"emitDecoratorMetadata\": true,\n      \"esModuleInterop\": true,\n      \"skipLibCheck\": true,\n      \"noImplicitAny\": false."),
  ("nestjs", "\n    - **SPEED:** Generate a MINIMAL scaffold (AppModule, AppController only). Do NOT generate full CRUD resources (to prevent timeout).\n    - **Docker:** Use 'COPY package*.json ./'."),
  ("python", "\n    - **SPEED (CRITICAL):** For FastAPI/Flask, generate ONLY 'src/main.py' and 'requirements.txt'.\n    - **Structure:** All python code in 'src/'.\n    - **Venv:** Setup script should use 'python -m venv venv'.\n    - **Docker:** Use 'python:3.9-slim'. Ensure 'COPY requirements.txt .'."),
  ("django", "\n    - **SPEED (CRITICAL):** Generate a single-app project. Do NOT generate admin files or complex migrations. Keep it minimal to prevent timeout.\n    - **Docker:** Use 'python:3.9-slim'."),
  ("c#", "\n    - **Structure:** Solution (.sln) in root, Project (.csproj) in 'src/'.\n    - **Code Style (CRITICAL):** ALWAYS include 'using System;' and 'using System.Collections.Generic;' in ALL C# files.\n    - **Style:** Use standard .NET 6+ style (Program.cs with builder), no Startup.cs.\n    - **Docker (CRITICAL):**\n      1. Use 'mcr.microsoft.com/dotnet/sdk:6.0' for build.\n      2. Use 'mcr.microsoft.com/dotnet/aspnet:6.0' for runtime.\n      3. ENTRYPOINT: Use wildcard to find DLL: ENTRYPOINT [\"sh\", \"-c\", \"dotnet *.dll\"] inside the /app folder."),
  ("java", "\n    - **Structure:** src/main/java.\n    - **Config (CRITICAL):** In 'pom.xml', YOU MUST include <parent> section for 'spring-boot-starter-parent' version '3.2.0'.\n    - **Build Name:** Add <finalName>app</finalName> inside <build> section of pom.xml.\n    - **Env Vars:** Use standard naming (e.g. 'SPRING_DATASOURCE_URL'), NO spaces in keys.\n    - **Docker (CRITICAL):** Use MULTI-STAGE build with WORKDIR.\n      1. Stage 1: FROM maven:3.9-eclipse-temurin-17 AS build -> WORKDIR /app -> COPY . . -> RUN mvn clean package -DskipTests\n      2. Stage 2: FROM eclipse-temurin:17-jdk-jammy -> WORKDIR /app -> COPY --from=build /app/target/app.jar app.jar -> ENTRYPOINT [\"java\",\"-jar\",\"app.jar\"]"),
  ("go", "\n    - **SPEED (CRITICAL):** Generate ONLY 'main.go' and 'go.mod'.\n    - **Docker:** Use 'FROM golang:1.21-alpine'.\n    - **Dependencies:** In go.mod, do NOT pin old versions. Use 'go 1.21' directive.\n    - **Build Steps (CRITICAL ORDER):**\n      1. COPY go.mod ./\n      2. COPY src/*.go ./\n      3. RUN go mod tidy\n      4. RUN go build -o main ."),
  ("ruby", "\n    - **Config:** Include 'Gemfile'.\n    - **Docker:** Use 'ruby:3.2-alpine'."),
  ("php", "\n    - **Config:** Include 'composer.json'.\n    - **Docker:** Use 'php:8.2-apache'."),
  ("rust", "\n    - **Config:** Include 'Cargo.toml'.\n    - **Docker:** Use multi-stage build."),
  ("kotlin", "\n    - **Structure:** src/main/kotlin.\n    - **Config:** 'build.gradle.kts'."),
  ("swift", "\n    - **Config:** 'Package.swift'.\n    - **Docker:** swift:5.8 image."),
  ("elixir", "\n    - **Config:** 'mix.exs'.\n    - **Docker:** elixir:1.14-alpine."),
  ("graphql", "\n    - **Schema:** Create a basic schema.graphql or code-first approach.\n    - **Server:** Use Apollo Server (Node) or Strawberry/Ariadne (Python)."),
  ("swagger", "\n    - **Docs:** Generate a 'swagger.yaml' file or enable auto-docs (FastAPI/NestJS)."),
  ("worker", "\n    - **Redis:** Include redis service in docker-compose.yml.\n    - **Code:** Create a simple worker script/entry point."),
  ("terraform", "\n    - **IaC:** Create a 'terraform/' folder with 'main.tf' (provider: AWS/Local) and 'variables.tf'."),
  ("vector", "\n    - **Deps:** Install pinecone-client or chroma-db client.\n    - **Env:** Add VECTOR_DB_API_KEY to .env.example."),
  ("prisma", "\n    - **Python:** Use 'pip install prisma'. Run 'prisma generate'.\n    - **Node:** Use 'npm install prisma'."),
  ("docker", "\n    - **YAML Formatting (CRITICAL):** The content of 'docker-compose.yml' MUST be a multi-line string with proper YAML indentation. Do NOT generate a single-line string with literal '\\n' characters.\n    - **Syntax:** ALWAYS put a space after the colon (e.g., \"version: '3.8'\", NOT \"version:'3.8'\").\n    - **Build:** Ensure dependency install runs BEFORE build command.")]

/-- `TECH_RULES[tech]` as the route's manual-trigger lines read it. -/
def lookupRule (tech : String) : String :=
  (((TECH_RULES.find? (fun kv => kv.1 == tech)).map Prod.snd).getD "")

/-- The `Object.keys(TECH_RULES).forEach` loop (route.ts lines 394-398): for
each dictionary key, in order, the fragment
`"\n### RULE FOR " + tech.toUpperCase() + ":" + TECH_RULES[tech]` is appended
when `cleanPrompt.includes(tech.toLowerCase())`.  Each appended fragment is
recorded as a `(header, rule text)` pair. -/
def loopInjections (p : List Char) : List (List Char × String) :=
  TECH_RULES.filterMap (fun kv =>
    if jsIncludes p (jsToLower kv.1.toList) then
      some (jsToUpper kv.1.toList, kv.2)
    else none)

/-- The manual-trigger block (route.ts lines 400-413), appended after the
loop, in source order. -/
def triggerInjections (p : List Char) : List (List Char × String) :=
  (if jsIncludes p ("graphql".toList) then [("GRAPHQL".toList, lookupRule "graphql")] else [])
  ++ (if jsIncludes p ("swagger".toList) then [("SWAGGER".toList, lookupRule "swagger")] else [])
  ++ (if jsIncludes p ("worker".toList) then [("WORKER".toList, lookupRule "worker")] else [])
  ++ (if jsIncludes p ("terraform".toList) then [("TERRAFORM".toList, lookupRule "terraform")] else [])
  ++ (if jsIncludes p ("vector".toList) then [("VECTOR_DB".toList, lookupRule "vector")] else [])
  ++ (if jsIncludes p ("node".toList) || jsIncludes p ("typescript".toList)
        || jsIncludes p ("express".toList) || jsIncludes p ("nest".toList) then
        [("TYPESCRIPT".toList, lookupRule "typescript"), ("NODE".toList, lookupRule "node")]
      else [])
  ++ (if jsIncludes p ("nest".toList) then [("NESTJS".toList, lookupRule "nestjs")] else [])
  ++ (if jsIncludes p ("django".toList) then [("DJANGO".toList, lookupRule "django")] else [])

/-- All fragments appended to `specificRules` for a normalized prompt `p`,
in order: the dictionary loop followed by the manual triggers. -/
def ruleInjections (p : List Char) : List (List Char × String) :=
  loopInjections p ++ triggerInjections p

/-- The dynamic-rules section of the LLM system prompt: the concatenation,
in order, of the appended fragments. -/
def specificRules (p : List Char) : List Char :=
  ((ruleInjections p).map
    (fun f => "\n### RULE FOR ".toList ++ f.1 ++ ":".toList ++ f.2.toList)).flatten

/-! ### The JSON file tree and zip packaging (`parseStructure`, route.ts 323-332)

The LLM's reply is `JSON.parse`d; the claims consider JSON file trees: nested
objects whose leaf values are strings.  `parseStructure` walks
`Object.entries`, calls `folder.file(key, value)` on string values and
recurses into a subfolder otherwise; the archive is modelled as the list of
files it adds, each a full path (the key sequence from the root) with its
content. -/

inductive JVal where
  | str (s : String)
  | obj (entries : List (String × JVal))

/-- The files `parseStructure(folder, structure)` adds to the zip, with `pre`
the path of `folder` from the archive root. -/
def parseStructure : List String → List (String × JVal) → List (List String × String)
  | _, [] => []
  | pre, (k, .str s) :: rest => (pre ++ [k], s) :: parseStructure pre rest
  | pre, (k, .obj es) :: rest => parseStructure (pre ++ [k]) es ++ parseStructure pre rest

/-- Spec-side description of C7: `LeafAt es p c` holds when the tree with
entries `es` has a string leaf of content `c` at the key path `p`. -/
inductive LeafAt : List (String × JVal) → List String → String → Prop where
  | here {k : String} {s : String} {rest : List (String × JVal)} :
      LeafAt ((k, .str s) :: rest) [k] s
  | inChild {k : String} {es : List (String × JVal)} {rest : List (String × JVal)}
      {p : List String} {s : String} :
      LeafAt es p s → LeafAt ((k, .obj es) :: rest) (k :: p) s
  | inRest {e : String × JVal} {rest : List (String × JVal)}
      {p : List String} {s : String} :
      LeafAt rest p s → LeafAt (e :: rest) p s

/-- Spec-side count of the string leaves of a tree. -/
def leafCount : List (String × JVal) → Nat
  | [] => 0
  | (_, .str _) :: rest => 1 + leafCount rest
  | (_, .obj es) :: rest => leafCount es + leafCount rest

/-! ### The persisted data model (Prisma `template` table) -/

/-- A row of the `template` table: prompt text, result URL, download count,
optional owning user and creation timestamp (plus the primary key). -/
structure Template where
  id : Nat
  prompt : List Char
  s3Url : List Char
  downloads : Nat
  userId : Option (List Char)
  createdAt : Nat
deriving DecidableEq

/-- The database mutations the routes perform, reified. -/
inductive DbWrite where
  | insert (t : Template)
  | incrementDownloads (id : Nat)
deriving DecidableEq

/-- `prisma.template.create` appends a row; `prisma.template.update` with
`downloads: { increment: 1 }` bumps the counter of the row with the given
primary key. -/
def applyWrite (db : List Template) : DbWrite → List Template
  | .insert t => db ++ [t]
  | .incrementDownloads i =>
      db.map (fun t => if t.id = i then { t with downloads := t.downloads + 1 } else t)

def applyWrites (db : List Template) (ws : List DbWrite) : List Template :=
  ws.foldl applyWrite db

/-- The immutable part of a row survives, and its counter never decreases. -/
def RowPreserved (t t' : Template) : Prop :=
  t'.id = t.id ∧ t'.prompt = t.prompt ∧ t'.s3Url = t.s3Url ∧
  t'.userId = t.userId ∧ t'.createdAt = t.createdAt ∧ t.downloads ≤ t'.downloads

/-- The `where` clause of the cache read (route.ts 364-367):
`{ prompt: cleanPrompt, s3Url: { not: "" } }`. -/
def matchesCache (p : List Char) (t : Template) : Bool :=
  t.prompt == p && t.s3Url != []

/-- `findFirst` with `orderBy: { createdAt: 'desc' }`: the matching row with
the greatest `createdAt` (the earliest such row on ties). -/
def pickLatest (l : List Template) : Option Template :=
  l.foldl (fun best t =>
    match best with
    | none => some t
    | some b => if b.createdAt < t.createdAt then some t else some b) none

/-- The cache read: `prisma.template.findFirst({ where: { prompt: cleanPrompt,
s3Url: { not: "" } }, orderBy: { createdAt: 'desc' } })`. -/
def cacheLookup (db : List Template) (p : List Char) : Option Template :=
  pickLatest (db.filter (matchesCache p))

/-- `prisma.template.count({ where: { userId, createdAt: { gte: today } } })`
(route.ts 353-355). -/
def dailyCount (db : List Template) (u : List Char) (startOfToday : Nat) : Nat :=
  (db.filter (fun t => t.userId == some u && decide (startOfToday ≤ t.createdAt))).length

/-- The sum of the `downloads` column over the whole table. -/
def sumDownloads (db : List Template) : Nat :=
  (db.map Template.downloads).sum

/-- `prisma.template.aggregate({ _sum: { downloads: true } })._sum.downloads`:
`null` when the table is empty, the column sum otherwise. -/
def aggregateSumDownloads (db : List Template) : Option Nat :=
  if db.isEmpty then none else some (sumDownloads db)

/-! ### The generate route (`POST /api/generate`, route.ts 334-516) -/

def MAX_DAILY_GENERATIONS : Nat := 15

def MAX_PROMPT_LENGTH : Nat := 600

/-- The outcome of the single OpenAI chat-completion call: the call can throw,
return `null` content (`"AI returned empty content"`), return content that
`JSON.parse` rejects (the same bucket holds replies whose shape breaks the
subsequent `structure[rootKey]` walk), or parse to an object whose first key
maps to the object `root`. -/
inductive LLMResult where
  | apiError
  | emptyContent
  | parseError
  | ok (root : List (String × JVal))

/-- The external world a request runs against: the Clerk auth result, the
environment, the clock, and the results of the fallible service calls the
handler awaits.  `dbOk` is whether the guarded rate-limit/cache-read block
succeeds; `hitUpdateOk`/`hitCreateOk`/`saveOk` are the fire-and-forget or
try/caught row writes; `newId`/`now` supply the primary key and timestamp of
any inserted row; `publicUrl` is what `getPublicUrl` returns for the
uploaded zip. -/
structure Env where
  userId : Option (List Char)
  nodeEnv : String
  startOfToday : Nat
  now : Nat
  newId : Nat
  dbOk : Bool
  hitUpdateOk : Bool
  hitCreateOk : Bool
  saveOk : Bool
  llm : LLMResult
  uploadOk : Bool
  publicUrl : List Char

/-- The JSON body the route answers with. -/
inductive ApiBody where
  | urlBody (url : List Char) (cached : Bool)
  | errorBody (msg : String)
deriving DecidableEq

structure ApiResponse where
  status : Nat
  body : ApiBody
deriving DecidableEq

/-- What one request did: its response, the database writes it issued (in
order), and whether it reached the cache read, the LLM call, the zip build
(`generateAsync`) and the storage upload. -/
structure Outcome where
  response : ApiResponse
  writes : List DbWrite
  cacheQueried : Bool
  llmCalled : Bool
  rulesBuilt : Option (List (List Char × String))
  zipBuilt : Option (List (List String × String))
  uploadAttempted : Bool
deriving DecidableEq

/-- An early return that touched nothing. -/
def noEffects (r : ApiResponse) : Outcome :=
  { response := r, writes := [], cacheQueried := false, llmCalled := false,
    rulesBuilt := none, zipBuilt := none, uploadAttempted := false }

/-- Route.ts 350-361: signed-in users are limited to `MAX_DAILY_GENERATIONS`
rows created since local midnight, unless `NODE_ENV === 'development'`. -/
def rateLimitHit (env : Env) (db : List Template) : Bool :=
  match env.userId with
  | some u => env.nodeEnv != "development"
      && decide (MAX_DAILY_GENERATIONS ≤ dailyCount db u env.startOfToday)
  | none => false

/-- The writes of the cache-hit branch (route.ts 377-388): the matched row's
downloads counter is incremented, and a signed-in user gets a personal copy
inserted with `downloads: 1`.  Each write is fire-and-forget
(`.catch(() => {})`), so either may silently fail. -/
def hitWrites (env : Env) (clean : List Char) (t : Template) : List DbWrite :=
  (if env.hitUpdateOk then [DbWrite.incrementDownloads t.id] else [])
  ++ (match env.userId with
      | some u =>
          if env.hitCreateOk then
            [DbWrite.insert { id := env.newId, prompt := clean, s3Url := t.s3Url,
                              downloads := 1, userId := some u, createdAt := env.now }]
          else []
      | none => [])

def failedResponse : ApiResponse :=
  { status := 500, body := .errorBody "Failed to generate project" }

/-- The cache-miss path (route.ts 393-510): build the dynamic rules, call the
LLM, build and upload the zip, save the row when the database is reachable
(a failed save is caught and logged), and answer `{ url, cached: false }`.
Any throw lands in the outer catch, which answers
`{ error: "Failed to generate project" }` with status 500. -/
def generateFresh (env : Env) (clean : List Char) (dbAvailable : Bool) : Outcome :=
  match env.llm with
  | .apiError =>
      { response := failedResponse, writes := [], cacheQueried := dbAvailable,
        llmCalled := true, rulesBuilt := some (ruleInjections clean),
        zipBuilt := none, uploadAttempted := false }
  | .emptyContent =>
      { response := failedResponse, writes := [], cacheQueried := dbAvailable,
        llmCalled := true, rulesBuilt := some (ruleInjections clean),
        zipBuilt := none, uploadAttempted := false }
  | .parseError =>
      { response := failedResponse, writes := [], cacheQueried := dbAvailable,
        llmCalled := true, rulesBuilt := some (ruleInjections clean),
        zipBuilt := none, uploadAttempted := false }
  | .ok root =>
      if env.uploadOk then
        { response := { status := 200, body := .urlBody env.publicUrl false },
          writes :=
            if dbAvailable then
              if env.saveOk then
                [DbWrite.insert { id := env.newId, prompt := clean,
                                  s3Url := env.publicUrl, downloads := 1,
                                  userId := env.userId, createdAt := env.now }]
              else []
            else [],
          cacheQueried := dbAvailable, llmCalled := true,
          rulesBuilt := some (ruleInjections clean),
          zipBuilt := some (parseStructure [] root), uploadAttempted := true }
      else
        { response := failedResponse, writes := [], cacheQueried := dbAvailable,
          llmCalled := true, rulesBuilt := some (ruleInjections clean),
          zipBuilt := some (parseStructure [] root), uploadAttempted := true }

/-- `POST /api/generate` (route.ts 334-516).  `promptField` is the `prompt`
field of the request body: `none` stands for a missing or non-string value
(including a body whose parse left `prompt` undefined); an empty string is
falsy and hits the same `Invalid prompt` return. -/
def generatePOST (env : Env) (db : List Template) (promptField : Option (List Char)) : Outcome :=
  match promptField with
  | none => noEffects { status := 400, body := .errorBody "Invalid prompt" }
  | some prompt =>
    if prompt.isEmpty then
      noEffects { status := 400, body := .errorBody "Invalid prompt" }
    else if MAX_PROMPT_LENGTH < prompt.length then
      noEffects { status := 400, body := .errorBody "Prompt too long" }
    else
      let clean := cleanPrompt prompt
      if env.dbOk then
        if rateLimitHit env db then
          noEffects { status := 429, body := .errorBody "Daily limit reached" }
        else
          match cacheLookup db clean with
          | some t =>
              { response := { status := 200, body := .urlBody t.s3Url true },
                writes := hitWrites env clean t,
                cacheQueried := true, llmCalled := false, rulesBuilt := none,
                zipBuilt := none, uploadAttempted := false }
          | none => generateFresh env clean true
      else
        generateFresh env clean false

/-! ### The stats route (`GET /api/stats`, stats/route.ts) -/

structure StatsOutcome where
  status : Nat
  count : Nat
  writes : List DbWrite
deriving DecidableEq

/-- `GET /api/stats`: aggregate the downloads column; `result._sum.downloads
|| 0` maps the `null` of an empty table to `0`; a thrown query is caught and
answered `{ count: 0 }` with status 500.  The route performs no mutation. -/
def statsGET (db : List Template) (dbOk : Bool) : StatsOutcome :=
  if dbOk then
    { status := 200, count := (aggregateSumDownloads db).getD 0, writes := [] }
  else
    { status := 500, count := 0, writes := [] }

/-! ### Concrete sample data for witnesses and counterexamples -/

/-- A stored generation record for the prompt `"node"`. -/
def sampleRow : Template :=
  { id := 1, prompt := "node".toList, s3Url := "https://cdn.example/a.zip".toList,
    downloads := 3, userId := none, createdAt := 10 }

/-- A healthy environment for an anonymous requester (every service call
succeeds; the LLM oracle is only consulted on the miss path). -/
def baseEnv : Env :=
  { userId := none, nodeEnv := "production", startOfToday := 0, now := 20, newId := 2,
    dbOk := true, hitUpdateOk := true, hitCreateOk := true, saveOk := true,
    llm := .apiError, uploadOk := true,
    publicUrl := "https://cdn.example/new.zip".toList }

/-- An environment whose guarded database block fails (`dbOk := false`) while
the LLM and the upload succeed. -/
def dbDownEnv : Env :=
  { userId := none, nodeEnv := "production", startOfToday := 0, now := 20, newId := 2,
    dbOk := false, hitUpdateOk := true, hitCreateOk := true, saveOk := true,
    llm := .ok [("README.md", .str "hello")], uploadOk := true,
    publicUrl := "https://cdn.example/new.zip".toList }

/-- First of two concurrent requesters racing on the same prompt. -/
def raceEnvA : Env := { baseEnv with llm := .ok [("main.go", .str "package main")] }

/-- Second of two concurrent requesters racing on the same prompt. -/
def raceEnvB : Env :=
  { baseEnv with
    llm := .ok [("go.mod", .str "module x")],
    newId := 3,
    publicUrl := "https://cdn.example/other.zip".toList }

/-- A signed-in requester in an otherwise healthy environment. -/
def userEnv : Env := { baseEnv with userId := some ("u1".toList) }

/-! ### Character-level lemmas about lowercasing and whitespace -/

theorem toLower_eq_of_upper {c : Char} (h : 65 ≤ c.toNat ∧ c.toNat ≤ 90) :
    Char.toLower c = Char.ofNat (c.toNat + 32) := by
  unfold Char.toLower
  exact if_pos h

theorem toLower_eq_self {c : Char} (h : ¬(65 ≤ c.toNat ∧ c.toNat ≤ 90)) :
    Char.toLower c = c := by
  unfold Char.toLower
  exact if_neg h

theorem isWhitespace_ofNat_upper_shift {n : Nat} (h1 : 65 ≤ n) (h2 : n ≤ 90) :
    (Char.ofNat (n + 32)).isWhitespace = false := by
  interval_cases n <;> decide

theorem isWhitespace_of_upper {c : Char} (h1 : 65 ≤ c.toNat) (h2 : c.toNat ≤ 90) :
    c.isWhitespace = false := by
  cases hw : c.isWhitespace with
  | false => rfl
  | true =>
    simp only [Char.isWhitespace, Bool.or_eq_true, decide_eq_true_eq] at hw
    rcases hw with ((h | h) | h) | h <;> subst h <;> exact absurd h1 (by decide)

theorem isWhitespace_toLower (c : Char) :
    (Char.toLower c).isWhitespace = c.isWhitespace := by
  by_cases h : 65 ≤ c.toNat ∧ c.toNat ≤ 90
  · rw [toLower_eq_of_upper h, isWhitespace_ofNat_upper_shift h.1 h.2,
      isWhitespace_of_upper h.1 h.2]
  · rw [toLower_eq_self h]

theorem toLower_toLower (c : Char) :
    Char.toLower (Char.toLower c) = Char.toLower c := by
  by_cases h : 65 ≤ c.toNat ∧ c.toNat ≤ 90
  · rw [toLower_eq_of_upper h]
    have key : ∀ n, 65 ≤ n → n ≤ 90 →
        Char.toLower (Char.ofNat (n + 32)) = Char.ofNat (n + 32) := by
      intro n h1 h2
      interval_cases n <;> decide
    exact key _ h.1 h.2
  · rw [toLower_eq_self h, toLower_eq_self h]

/-! ### List-level lemmas: `jsTrim` and `jsToLower` interaction -/

theorem dropWhile_dropWhile {α : Type} (p : α → Bool) (l : List α) :
    (l.dropWhile p).dropWhile p = l.dropWhile p := by
  induction l with
  | nil => rfl
  | cons a t ih =>
    by_cases h : p a
    · simp [List.dropWhile_cons, h, ih]
    · simp [List.dropWhile_cons, h]

theorem dropWhile_rev_dropWhile_comm {α : Type} (p : α → Bool) (l : List α) :
    ((l.reverse.dropWhile p).reverse).dropWhile p
      = (((l.dropWhile p).reverse).dropWhile p).reverse := by
  induction l with
  | nil => rfl
  | cons a t ih =>
    by_cases hall : ∀ x ∈ t, p x
    · have hrev : ∀ x ∈ t.reverse, p x := by simpa using hall
      have htr : t.reverse.dropWhile p = [] := List.dropWhile_eq_nil_iff.mpr hrev
      have ht : t.dropWhile p = [] := List.dropWhile_eq_nil_iff.mpr hall
      by_cases hp : p a
      · have h1 : (t.reverse ++ [a]).dropWhile p = [] := by
          rw [List.dropWhile_append_of_pos hrev]
          simp [List.dropWhile_cons, hp]
        simp [List.reverse_cons, List.dropWhile_cons, hp, h1, ht, htr]
      · have h1 : (t.reverse ++ [a]).dropWhile p = [a] := by
          rw [List.dropWhile_append_of_pos hrev]
          simp [List.dropWhile_cons, hp]
        simp [List.reverse_cons, List.dropWhile_cons, hp, h1, ht]
    · have hne : ¬(t.reverse.dropWhile p).isEmpty := by
        simp only [List.isEmpty_iff, List.dropWhile_eq_nil_iff]
        intro hc
        exact hall (fun x hx => hc x (by simpa using hx))
      have h1 : ((a :: t).reverse).dropWhile p = t.reverse.dropWhile p ++ [a] := by
        rw [List.reverse_cons, List.dropWhile_append, if_neg hne]
      by_cases hp : p a
      · have h2 : (a :: t).dropWhile p = t.dropWhile p := by
          simp [List.dropWhile_cons, hp]
        rw [h1, h2, List.reverse_append]
        simpa [List.dropWhile_cons, hp] using ih
      · have h2 : (a :: t).dropWhile p = a :: t := by
          simp [List.dropWhile_cons, hp]
        rw [h1, h2, h1, List.reverse_append]
        simp [List.dropWhile_cons, hp]

theorem jsTrim_idem (l : List Char) : jsTrim (jsTrim l) = jsTrim l := by
  unfold jsTrim
  set p := Char.isWhitespace with hp
  set A := l.dropWhile p with hA
  have hAd : A.dropWhile p = A := by rw [hA]; exact dropWhile_dropWhile p l
  have h1 : (((A.reverse.dropWhile p).reverse).dropWhile p)
      = ((A.dropWhile p).reverse.dropWhile p).reverse :=
    dropWhile_rev_dropWhile_comm p A
  rw [hAd] at h1
  rw [h1, List.reverse_reverse, dropWhile_dropWhile]

theorem jsTrim_jsToLower (l : List Char) :
    jsTrim (jsToLower l) = jsToLower (jsTrim l) := by
  unfold jsTrim jsToLower
  have hws : (Char.isWhitespace ∘ Char.toLower) = Char.isWhitespace :=
    funext isWhitespace_toLower
  rw [List.dropWhile_map, hws, ← List.map_reverse, List.dropWhile_map, hws,
    ← List.map_reverse]

theorem jsToLower_idem (l : List Char) : jsToLower (jsToLower l) = jsToLower l := by
  unfold jsToLower
  rw [List.map_map]
  have : (Char.toLower ∘ Char.toLower) = Char.toLower := funext toLower_toLower
  rw [this]

theorem cleanPrompt_idem (p : List Char) :
    cleanPrompt (cleanPrompt p) = cleanPrompt p := by
  unfold cleanPrompt
  rw [jsTrim_jsToLower, jsTrim_idem, jsToLower_idem]

/-! ### Support lemmas about the embedded operations -/

theorem pickLatest_mem_aux :
    ∀ (l : List Template) (acc : Option Template) (t : Template),
      l.foldl (fun best t =>
        match best with
        | none => some t
        | some b => if b.createdAt < t.createdAt then some t else some b) acc = some t →
      t ∈ l ∨ acc = some t := by
  intro l
  induction l with
  | nil => exact fun acc t h => Or.inr h
  | cons a rest ih =>
    intro acc t h
    rcases ih _ t h with hmem | hacc
    · exact Or.inl (List.mem_cons_of_mem _ hmem)
    · cases acc with
      | none =>
        simp only [] at hacc
        exact Or.inl (by simp [← Option.some_inj.mp hacc])
      | some b =>
        by_cases hlt : b.createdAt < a.createdAt
        · simp only [if_pos hlt] at hacc
          exact Or.inl (by simp [← Option.some_inj.mp hacc])
        · simp only [if_neg hlt] at hacc
          exact Or.inr hacc

theorem pickLatest_mem {l : List Template} {t : Template}
    (h : pickLatest l = some t) : t ∈ l := by
  rcases pickLatest_mem_aux l none t h with hm | habs
  · exact hm
  · exact absurd habs (by simp)

theorem pickLatest_some_of_acc_some :
    ∀ (l : List Template) (b : Template),
      ∃ c, l.foldl (fun best t =>
        match best with
        | none => some t
        | some b => if b.createdAt < t.createdAt then some t else some b) (some b) = some c := by
  intro l
  induction l with
  | nil => exact fun b => ⟨b, rfl⟩
  | cons a rest ih =>
    intro b
    by_cases hlt : b.createdAt < a.createdAt
    · simpa [if_pos hlt] using ih a
    · simpa [if_neg hlt] using ih b

theorem cacheLookup_some_spec {db : List Template} {p : List Char} {t : Template}
    (h : cacheLookup db p = some t) :
    t ∈ db ∧ t.prompt = p ∧ t.s3Url ≠ [] := by
  have hm : t ∈ db.filter (matchesCache p) := pickLatest_mem h
  have hdb := List.mem_of_mem_filter hm
  have hmc : matchesCache p t = true := List.of_mem_filter hm
  unfold matchesCache at hmc
  simp only [Bool.and_eq_true, beq_iff_eq, bne_iff_ne, ne_eq] at hmc
  exact ⟨hdb, hmc.1, hmc.2⟩

theorem cacheLookup_isSome_of_exists {db : List Template} {p : List Char}
    (h : ∃ r ∈ db, r.prompt = p ∧ r.s3Url ≠ []) :
    ∃ t, cacheLookup db p = some t := by
  obtain ⟨r, hr, hp, hs⟩ := h
  have hmem : r ∈ db.filter (matchesCache p) :=
    List.mem_filter.mpr ⟨hr, by simp [matchesCache, hp, hs]⟩
  cases hfilter : db.filter (matchesCache p) with
  | nil => rw [hfilter] at hmem; cases hmem
  | cons a rest =>
    unfold cacheLookup pickLatest
    rw [hfilter]
    simpa using pickLatest_some_of_acc_some rest a

theorem rowPreserved_refl (t : Template) : RowPreserved t t :=
  ⟨rfl, rfl, rfl, rfl, rfl, Nat.le_refl _⟩

theorem rowPreserved_trans {a b c : Template}
    (h1 : RowPreserved a b) (h2 : RowPreserved b c) : RowPreserved a c :=
  ⟨h2.1.trans h1.1, h2.2.1.trans h1.2.1, h2.2.2.1.trans h1.2.2.1,
    h2.2.2.2.1.trans h1.2.2.2.1, h2.2.2.2.2.1.trans h1.2.2.2.2.1,
    Nat.le_trans h1.2.2.2.2.2 h2.2.2.2.2.2⟩

theorem applyWrite_length_le (db : List Template) (w : DbWrite) :
    db.length ≤ (applyWrite db w).length := by
  cases w <;> simp [applyWrite]

theorem applyWrite_preserves (db : List Template) (w : DbWrite) (i : Nat) (t : Template)
    (h : db[i]? = some t) :
    ∃ t', (applyWrite db w)[i]? = some t' ∧ RowPreserved t t' := by
  cases w with
  | insert s =>
    have hi : i < db.length := by
      by_contra hge
      rw [List.getElem?_eq_none (Nat.le_of_not_lt hge)] at h
      cases h
    refine ⟨t, ?_, rowPreserved_refl t⟩
    rw [applyWrite, List.getElem?_append, if_pos hi]
    exact h
  | incrementDownloads j =>
    refine ⟨if t.id = j then { t with downloads := t.downloads + 1 } else t, ?_, ?_⟩
    · rw [applyWrite, List.getElem?_map, h]
      rfl
    · by_cases hj : t.id = j
      · simp [hj, RowPreserved]
      · simp [hj, rowPreserved_refl]

theorem applyWrites_preserves :
    ∀ (ws : List DbWrite) (db : List Template) (i : Nat) (t : Template),
      db[i]? = some t →
      ∃ t', (applyWrites db ws)[i]? = some t' ∧ RowPreserved t t' := by
  intro ws
  induction ws with
  | nil => exact fun db i t h => ⟨t, h, rowPreserved_refl t⟩
  | cons w rest ih =>
    intro db i t h
    obtain ⟨t₁, h₁, hr₁⟩ := applyWrite_preserves db w i t h
    obtain ⟨t₂, h₂, hr₂⟩ := ih (applyWrite db w) i t₁ h₁
    exact ⟨t₂, h₂, rowPreserved_trans hr₁ hr₂⟩

theorem applyWrites_length_le :
    ∀ (ws : List DbWrite) (db : List Template),
      db.length ≤ (applyWrites db ws).length := by
  intro ws
  induction ws with
  | nil => exact fun db => Nat.le_refl _
  | cons w rest ih =>
    intro db
    exact Nat.le_trans (applyWrite_length_le db w) (ih (applyWrite db w))

theorem sumDownloads_append_one (db : List Template) (r : Template) :
    sumDownloads (db ++ [r]) = sumDownloads db + r.downloads := by
  simp [sumDownloads]

theorem sum_map_increment (rest : List Template) (i : Nat) :
    ((rest.map (fun t => if t.id = i then { t with downloads := t.downloads + 1 } else t)).map
        Template.downloads).sum
      = (rest.map Template.downloads).sum + rest.countP (fun t => t.id == i) := by
  induction rest with
  | nil => rfl
  | cons a l ih =>
    simp only [List.map_cons, List.sum_cons, List.countP_cons]
    by_cases h : a.id = i
    · rw [if_pos h, ih]
      have hbeq : (a.id == i) = true := beq_iff_eq.mpr h
      simp only [hbeq, eq_self_iff_true, if_true]
      omega
    · rw [if_neg h, ih]
      have hbeq : (a.id == i) = false := by simp [h]
      simp only [hbeq, Bool.false_eq_true, if_false]
      omega

theorem sumDownloads_increment (db : List Template) (i : Nat) :
    sumDownloads (applyWrite db (.incrementDownloads i))
      = sumDownloads db + db.countP (fun t => t.id == i) :=
  sum_map_increment db i

theorem countP_id_eq_one {db : List Template} {t : Template}
    (hids : (db.map Template.id).Nodup) (hmem : t ∈ db) :
    db.countP (fun s => s.id == t.id) = 1 := by
  have h1 : db.countP (fun s => s.id == t.id) = (db.map Template.id).count t.id := by
    rw [List.count, List.countP_map]
    rfl
  rw [h1]
  exact List.count_eq_one_of_mem hids (List.mem_map_of_mem _ hmem)

theorem statsGET_ok_count (db : List Template) :
    (statsGET db true).count = sumDownloads db := by
  by_cases he : db.isEmpty
  · rw [List.isEmpty_iff.mp he]
    rfl
  · simp [statsGET, aggregateSumDownloads, he]

theorem generateFresh_status (env : Env) (clean : List Char) (b : Bool) :
    (generateFresh env clean b).response.status = 500 ∨
    (generateFresh env clean b).response.status = 200 := by
  cases h : env.llm with
  | apiError => left; simp [generateFresh, h, failedResponse]
  | emptyContent => left; simp [generateFresh, h, failedResponse]
  | parseError => left; simp [generateFresh, h, failedResponse]
  | ok root =>
    cases hup : env.uploadOk with
    | true => right; simp [generateFresh, h, hup]
    | false => left; simp [generateFresh, h, hup, failedResponse]

theorem generateFresh_fail (env : Env) (clean : List Char) (b : Bool)
    (hfail : env.llm = .apiError ∨ env.llm = .emptyContent ∨ env.llm = .parseError ∨
      env.uploadOk = false) :
    (generateFresh env clean b).response = failedResponse ∧
    (generateFresh env clean b).writes = [] := by
  cases hllm : env.llm with
  | apiError => simp [generateFresh, hllm]
  | emptyContent => simp [generateFresh, hllm]
  | parseError => simp [generateFresh, hllm]
  | ok root =>
    have hup : env.uploadOk = false := by
      rcases hfail with h | h | h | h <;> first | (rw [hllm] at h; cases h) | exact h
    simp [generateFresh, hllm, hup]

theorem generateFresh_ok (env : Env) (clean : List Char) (b : Bool)
    (root : List (String × JVal)) (hllm : env.llm = .ok root)
    (hup : env.uploadOk = true) :
    generateFresh env clean b =
      { response := { status := 200, body := .urlBody env.publicUrl false },
        writes :=
          if b then
            if env.saveOk then
              [DbWrite.insert { id := env.newId, prompt := clean,
                                s3Url := env.publicUrl, downloads := 1,
                                userId := env.userId, createdAt := env.now }]
            else []
          else [],
        cacheQueried := b, llmCalled := true,
        rulesBuilt := some (ruleInjections clean),
        zipBuilt := some (parseStructure [] root), uploadAttempted := true } := by
  simp [generateFresh, hllm, hup]

theorem parseStructure_mem_iff :
    ∀ (pre : List String) (es : List (String × JVal)) (q : List String) (c : String),
      (q, c) ∈ parseStructure pre es ↔ ∃ p, q = pre ++ p ∧ LeafAt es p c := by
  intro pre es
  induction pre, es using parseStructure.induct with
  | case1 pre =>
    intro q c
    simp only [parseStructure, List.not_mem_nil, false_iff]
    rintro ⟨p, _, hleaf⟩
    cases hleaf
  | case2 pre k s rest ih =>
    intro q c
    simp only [parseStructure, List.mem_cons]
    constructor
    · rintro (heq | hmem)
      · injection heq with hq hc
        exact ⟨[k], hq, hc ▸ LeafAt.here⟩
      · obtain ⟨p, hq, hleaf⟩ := (ih q c).mp hmem
        exact ⟨p, hq, LeafAt.inRest hleaf⟩
    · rintro ⟨p, hq, hleaf⟩
      cases hleaf with
      | here => exact Or.inl (by rw [hq])
      | inRest h => exact Or.inr ((ih q c).mpr ⟨p, hq, h⟩)
  | case3 pre k es rest ih1 ih2 =>
    intro q c
    simp only [parseStructure, List.mem_append]
    constructor
    · rintro (hchild | hrest)
      · obtain ⟨p, hq, hleaf⟩ := (ih1 q c).mp hchild
        refine ⟨k :: p, ?_, LeafAt.inChild hleaf⟩
        simp [hq]
      · obtain ⟨p, hq, hleaf⟩ := (ih2 q c).mp hrest
        exact ⟨p, hq, LeafAt.inRest hleaf⟩
    · rintro ⟨p, hq, hleaf⟩
      cases hleaf with
      | inChild h =>
        exact Or.inl ((ih1 q c).mpr ⟨_, by simp [hq], h⟩)
      | inRest h => exact Or.inr ((ih2 q c).mpr ⟨p, hq, h⟩)

theorem parseStructure_length :
    ∀ (pre : List String) (es : List (String × JVal)),
      (parseStructure pre es).length = leafCount es := by
  intro pre es
  induction pre, es using parseStructure.induct with
  | case1 pre => simp [parseStructure, leafCount]
  | case2 pre k s rest ih => simp [parseStructure, leafCount, ih, Nat.add_comm]
  | case3 pre k es rest ih1 ih2 => simp [parseStructure, leafCount, ih1, ih2]

/-! ### The claims -/

/-- C1: whenever a stored record with the normalized prompt and a non-empty
result URL exists, `POST /api/generate` answers status 200 with a matching
record's stored URL and `cached: true`, and performs no LLM call, no zip
build and no upload.  The hypotheses scope the claim to a request that
passes prompt validation and the daily limit and whose guarded database
read succeeds (the checks that precede the cache read). -/
theorem cache_hit_serves_stored_result (env : Env) (db : List Template) (p : List Char)
    (hdb : env.dbOk = true)
    (hne : p.isEmpty = false)
    (hlen : p.length ≤ MAX_PROMPT_LENGTH)
    (hrl : rateLimitHit env db = false)
    (hex : ∃ r ∈ db, r.prompt = cleanPrompt p ∧ r.s3Url ≠ []) :
    ∃ t ∈ db, t.prompt = cleanPrompt p ∧ t.s3Url ≠ [] ∧
      (generatePOST env db (some p)).response =
        { status := 200, body := .urlBody t.s3Url true } ∧
      (generatePOST env db (some p)).llmCalled = false ∧
      (generatePOST env db (some p)).zipBuilt = none ∧
      (generatePOST env db (some p)).uploadAttempted = false := by
  obtain ⟨t, hlook⟩ := cacheLookup_isSome_of_exists hex
  obtain ⟨hmem, hp, hs⟩ := cacheLookup_some_spec hlook
  have hnl : ¬(MAX_PROMPT_LENGTH < p.length) := Nat.not_lt.mpr hlen
  refine ⟨t, hmem, hp, hs, ?_, ?_, ?_, ?_⟩ <;>
    simp [generatePOST, hne, hnl, hdb, hrl, hlook]

/-- C1 witness: a request for `" Node "` against a table holding a record for
`"node"` with a non-empty URL is served from the cache. -/
theorem cache_hit_serves_stored_result_witness :
    ∃ t ∈ [sampleRow], t.prompt = cleanPrompt (" Node ".toList) ∧ t.s3Url ≠ [] ∧
      (generatePOST baseEnv [sampleRow] (some (" Node ".toList))).response =
        { status := 200, body := .urlBody t.s3Url true } ∧
      (generatePOST baseEnv [sampleRow] (some (" Node ".toList))).llmCalled = false ∧
      (generatePOST baseEnv [sampleRow] (some (" Node ".toList))).zipBuilt = none ∧
      (generatePOST baseEnv [sampleRow] (some (" Node ".toList))).uploadAttempted = false :=
  cache_hit_serves_stored_result baseEnv [sampleRow] (" Node ".toList)
    rfl (by decide) (by decide) (by decide) (by decide)

/-- C2 counterexample: for the normalized prompt `"express"`, the rule text of
the `TECH_RULES` key `"node"` is injected (by the manual-trigger block) even
though `"node"` does not occur in the prompt, so injection is not keyed by
substring match alone. -/
theorem rule_injection_substring_cex :
    ("node", lookupRule "node") ∈ TECH_RULES ∧
    jsIncludes (cleanPrompt ("express".toList)) (jsToLower ("node".toList)) = false ∧
    ("NODE".toList, lookupRule "node") ∈ ruleInjections (cleanPrompt ("express".toList)) ∧
    lookupRule "node" ≠ "" := by
  decide

/-- C2 (amended): for every `TECH_RULES` key, its rule text is concatenated
into the dynamic-rules section IF the normalized prompt contains the key as a
substring; the converse fails: every injected fragment either comes from a
key occurring in the prompt or from the manual-trigger block (which also
fires on `express`/`nest` and duplicates five keys). -/
theorem rule_injection_superset (p : List Char) :
    (∀ kv ∈ TECH_RULES, jsIncludes p (jsToLower kv.1.toList) = true →
      (jsToUpper kv.1.toList, kv.2) ∈ ruleInjections p) ∧
    (∀ e ∈ ruleInjections p,
      (∃ kv ∈ TECH_RULES, e = (jsToUpper kv.1.toList, kv.2) ∧
        jsIncludes p (jsToLower kv.1.toList) = true) ∨
      e ∈ triggerInjections p) := by
  constructor
  · intro kv hkv hinc
    unfold ruleInjections
    refine List.mem_append_left _ ?_
    unfold loopInjections
    refine List.mem_filterMap.mpr ⟨kv, hkv, ?_⟩
    rw [hinc]
    simp
  · intro e he
    unfold ruleInjections at he
    rcases List.mem_append.mp he with hl | hr
    · left
      obtain ⟨kv, hkv, heq⟩ := List.mem_filterMap.mp hl
      cases hc : jsIncludes p (jsToLower kv.1.toList) with
      | false => rw [hc] at heq; simp at heq
      | true =>
        rw [hc] at heq
        simp only [if_true] at heq
        exact ⟨kv, hkv, (Option.some_inj.mp heq).symm, hc⟩
    · right
      exact hr

/-- C2 witness: the `"python"` rule is injected for a prompt containing
`"python"`. -/
theorem rule_injection_superset_witness :
    (jsToUpper ("python".toList), lookupRule "python") ∈
      ruleInjections ("a python app".toList) :=
  (rule_injection_superset ("a python app".toList)).1
    ("python", lookupRule "python") (by decide) (by decide)

/-- C3: prompts that agree after trimming and lowercasing yield the same
normalized prompt, the same injected technology rules and the same cache
query, and normalization is idempotent. -/
theorem normalization_coherent :
    (∀ (db : List Template) (p₁ p₂ : List Char),
      jsToLower (jsTrim p₁) = jsToLower (jsTrim p₂) →
      cleanPrompt p₁ = cleanPrompt p₂ ∧
      ruleInjections (cleanPrompt p₁) = ruleInjections (cleanPrompt p₂) ∧
      cacheLookup db (cleanPrompt p₁) = cacheLookup db (cleanPrompt p₂)) ∧
    (∀ p : List Char, cleanPrompt (cleanPrompt p) = cleanPrompt p) := by
  refine ⟨fun db p₁ p₂ h => ?_, cleanPrompt_idem⟩
  have hc : cleanPrompt p₁ = cleanPrompt p₂ := h
  exact ⟨hc, by rw [hc], by rw [hc]⟩

/-- C3 witness: `"  NODE App "` and `"node app"` normalize alike, and
normalizing `"node app"` again changes nothing. -/
theorem normalization_coherent_witness :
    (cleanPrompt ("  NODE App ".toList) = cleanPrompt ("node app".toList) ∧
      ruleInjections (cleanPrompt ("  NODE App ".toList))
        = ruleInjections (cleanPrompt ("node app".toList)) ∧
      cacheLookup [sampleRow] (cleanPrompt ("  NODE App ".toList))
        = cacheLookup [sampleRow] (cleanPrompt ("node app".toList))) ∧
    cleanPrompt (cleanPrompt ("node app".toList)) = cleanPrompt ("node app".toList) :=
  ⟨normalization_coherent.1 [sampleRow] ("  NODE App ".toList) ("node app".toList)
      (by decide),
    normalization_coherent.2 ("node app".toList)⟩

/-- C4: the cache is read-then-write with no concurrency control: two
requests for the same normalized prompt that both read the initial table
(the simultaneous schedule) both miss, both call the LLM, and applying both
write sets leaves two new rows for that prompt. -/
theorem cache_race_double_generation (env₁ env₂ : Env) (db : List Template) (p : List Char)
    (r₁ r₂ : List (String × JVal))
    (hne : p.isEmpty = false) (hlen : p.length ≤ MAX_PROMPT_LENGTH)
    (hmiss : cacheLookup db (cleanPrompt p) = none)
    (hdb₁ : env₁.dbOk = true) (hdb₂ : env₂.dbOk = true)
    (hrl₁ : rateLimitHit env₁ db = false) (hrl₂ : rateLimitHit env₂ db = false)
    (hllm₁ : env₁.llm = .ok r₁) (hllm₂ : env₂.llm = .ok r₂)
    (hup₁ : env₁.uploadOk = true) (hup₂ : env₂.uploadOk = true)
    (hsv₁ : env₁.saveOk = true) (hsv₂ : env₂.saveOk = true) :
    (generatePOST env₁ db (some p)).llmCalled = true ∧
    (generatePOST env₂ db (some p)).llmCalled = true ∧
    (generatePOST env₁ db (some p)).response =
      { status := 200, body := .urlBody env₁.publicUrl false } ∧
    (generatePOST env₂ db (some p)).response =
      { status := 200, body := .urlBody env₂.publicUrl false } ∧
    ((applyWrites (applyWrites db (generatePOST env₁ db (some p)).writes)
        (generatePOST env₂ db (some p)).writes).filter
          (fun t => t.prompt == cleanPrompt p)).length
      = (db.filter (fun t => t.prompt == cleanPrompt p)).length + 2 := by
  have hnl : ¬(MAX_PROMPT_LENGTH < p.length) := Nat.not_lt.mpr hlen
  have e₁ : generatePOST env₁ db (some p) = generateFresh env₁ (cleanPrompt p) true := by
    simp [generatePOST, hne, hnl, hdb₁, hrl₁, hmiss]
  have e₂ : generatePOST env₂ db (some p) = generateFresh env₂ (cleanPrompt p) true := by
    simp [generatePOST, hne, hnl, hdb₂, hrl₂, hmiss]
  rw [e₁, e₂, generateFresh_ok env₁ (cleanPrompt p) true r₁ hllm₁ hup₁,
    generateFresh_ok env₂ (cleanPrompt p) true r₂ hllm₂ hup₂]
  refine ⟨rfl, rfl, rfl, rfl, ?_⟩
  simp only [hsv₁, hsv₂, if_true]
  simp [applyWrites, applyWrite, List.filter_append]

/-- C4 witness: two concrete healthy requesters race on the prompt
`"go app"` against an empty table; both generate and two rows result. -/
theorem cache_race_double_generation_witness :
    ((applyWrites (applyWrites [] (generatePOST raceEnvA [] (some ("go app".toList))).writes)
        (generatePOST raceEnvB [] (some ("go app".toList))).writes).filter
          (fun t => t.prompt == cleanPrompt ("go app".toList))).length
      = (([] : List Template).filter
          (fun t => t.prompt == cleanPrompt ("go app".toList))).length + 2 :=
  (cache_race_double_generation raceEnvA raceEnvB [] ("go app".toList)
    [("main.go", .str "package main")] [("go.mod", .str "module x")]
    (by decide) (by decide) rfl rfl rfl (by decide) (by decide)
    rfl rfl rfl rfl rfl rfl).2.2.2.2

/-- C5 counterexample: a request whose guarded database block fails
(a failed step) is not terminated with status 500: the handler proceeds to
the LLM and returns a fresh result with status 200. -/
theorem try_catch_totality_cex :
    dbDownEnv.dbOk = false ∧
    (generatePOST dbDownEnv [] (some ("x".toList))).response.status = 200 ∧
    (generatePOST dbDownEnv [] (some ("x".toList))).llmCalled = true := by
  decide

/-- C5 (amended): failures of the LLM call (thrown, empty content, or
unparseable reply) and of the storage upload are caught by the outer handler
and terminate the request with status 500 and body
`{ error: "Failed to generate project" }`, with no rows written; database
failures, by contrast, are caught, logged and survived (see the
counterexample). -/
theorem generation_failures_return_500 (env : Env) (db : List Template) (p : List Char)
    (hne : p.isEmpty = false) (hlen : p.length ≤ MAX_PROMPT_LENGTH)
    (hrl : rateLimitHit env db = false)
    (hmiss : env.dbOk = false ∨ cacheLookup db (cleanPrompt p) = none)
    (hfail : env.llm = .apiError ∨ env.llm = .emptyContent ∨ env.llm = .parseError ∨
      env.uploadOk = false) :
    (generatePOST env db (some p)).response = failedResponse ∧
    (generatePOST env db (some p)).writes = [] := by
  have hnl : ¬(MAX_PROMPT_LENGTH < p.length) := Nat.not_lt.mpr hlen
  cases hdb : env.dbOk with
  | false =>
    have e : generatePOST env db (some p) = generateFresh env (cleanPrompt p) false := by
      simp [generatePOST, hne, hnl, hdb]
    rw [e]
    exact generateFresh_fail env _ false hfail
  | true =>
    have hm : cacheLookup db (cleanPrompt p) = none := by
      rcases hmiss with h | h
      · rw [hdb] at h; cases h
      · exact h
    have e : generatePOST env db (some p) = generateFresh env (cleanPrompt p) true := by
      simp [generatePOST, hne, hnl, hdb, hrl, hm]
    rw [e]
    exact generateFresh_fail env _ true hfail

/-- C5 witness: a request whose LLM call throws is answered with the 500
error body and writes nothing. -/
theorem generation_failures_return_500_witness :
    (generatePOST baseEnv [] (some ("x".toList))).response = failedResponse ∧
    (generatePOST baseEnv [] (some ("x".toList))).writes = [] :=
  generation_failures_return_500 baseEnv [] ("x".toList) (by decide) (by decide)
    (by decide) (Or.inr rfl) (Or.inl rfl)

/-- C6: every database mutation of the system inserts a row or increments a
downloads counter: after any generate request, the table is at least as long,
every pre-existing row keeps its id, prompt, result URL, owner and creation
timestamp at its index with a non-decreasing downloads counter, and the
stats route performs no mutation at all. -/
theorem record_lifecycle_insert_increment_only (env : Env) (db : List Template)
    (pf : Option (List Char)) :
    db.length ≤ (applyWrites db (generatePOST env db pf).writes).length ∧
    (∀ (i : Nat) (t : Template), db[i]? = some t →
      ∃ t', (applyWrites db (generatePOST env db pf).writes)[i]? = some t' ∧
        t'.id = t.id ∧ t'.prompt = t.prompt ∧ t'.s3Url = t.s3Url ∧
        t'.userId = t.userId ∧ t'.createdAt = t.createdAt ∧
        t.downloads ≤ t'.downloads) ∧
    (∀ b : Bool, (statsGET db b).writes = []) := by
  refine ⟨applyWrites_length_le _ db, fun i t h => ?_, fun b => by cases b <;> rfl⟩
  obtain ⟨t', h', hr⟩ := applyWrites_preserves _ db i t h
  exact ⟨t', h', hr.1, hr.2.1, hr.2.2.1, hr.2.2.2.1, hr.2.2.2.2.1, hr.2.2.2.2.2⟩

/-- C7: the zip holds exactly one file per string leaf of the JSON file tree,
at the path given by the key sequence from the root, with the leaf's string
as content; object values only contribute the files of their own leaves. -/
theorem parseStructure_preserves_tree (es : List (String × JVal)) (q : List String)
    (c : String) :
    ((q, c) ∈ parseStructure [] es ↔ LeafAt es q c) ∧
    (parseStructure [] es).length = leafCount es := by
  constructor
  · rw [parseStructure_mem_iff [] es q c]
    constructor
    · rintro ⟨p, hq, h⟩
      rw [hq, List.nil_append]
      exact h
    · exact fun h => ⟨q, (List.nil_append q).symm, h⟩
  · exact parseStructure_length [] es

/-- C8: a signed-in user at or past the daily cap, outside development and
with a succeeding count query, is answered 429 before the cache read, the
LLM call, or any write; anonymous requests are never answered 429. -/
theorem daily_rate_limit_before_work :
    (∀ (env : Env) (db : List Template) (p u : List Char),
      env.userId = some u → env.nodeEnv ≠ "development" → env.dbOk = true →
      MAX_DAILY_GENERATIONS ≤ dailyCount db u env.startOfToday →
      p.isEmpty = false → p.length ≤ MAX_PROMPT_LENGTH →
      generatePOST env db (some p) =
        noEffects { status := 429, body := .errorBody "Daily limit reached" }) ∧
    (∀ (env : Env) (db : List Template) (pf : Option (List Char)),
      env.userId = none → (generatePOST env db pf).response.status ≠ 429) := by
  constructor
  · intro env db p u huid hdev hdb hcount hne hlen
    have hrl : rateLimitHit env db = true := by
      unfold rateLimitHit
      rw [huid]
      simp only [Bool.and_eq_true, bne_iff_ne, ne_eq, decide_eq_true_eq]
      exact ⟨hdev, hcount⟩
    simp [generatePOST, hne, Nat.not_lt.mpr hlen, hdb, hrl]
  · intro env db pf hnone
    have hrl : rateLimitHit env db = false := by
      unfold rateLimitHit
      rw [hnone]
    cases pf with
    | none => simp [generatePOST, noEffects]
    | some p =>
      by_cases h1 : p.isEmpty
      · simp [generatePOST, h1, noEffects]
      · by_cases h2 : MAX_PROMPT_LENGTH < p.length
        · simp [generatePOST, h1, h2, noEffects]
        · cases hdb : env.dbOk with
          | false =>
            have e : generatePOST env db (some p) = generateFresh env (cleanPrompt p) false := by
              simp [generatePOST, h1, h2, hdb]
            rw [e]
            rcases generateFresh_status env (cleanPrompt p) false with h | h <;> omega
          | true =>
            cases hc : cacheLookup db (cleanPrompt p) with
            | some t =>
              have hs : (generatePOST env db (some p)).response.status = 200 := by
                simp [generatePOST, h1, h2, hdb, hrl, hc]
              omega
            | none =>
              have e : generatePOST env db (some p) = generateFresh env (cleanPrompt p) true := by
                simp [generatePOST, h1, h2, hdb, hrl, hc]
              rw [e]
              rcases generateFresh_status env (cleanPrompt p) true with h | h <;> omega

/-- C8 witness: a signed-in user with 15 rows created today is turned away
with the untouched 429 outcome. -/
theorem daily_rate_limit_before_work_witness :
    generatePOST userEnv
        (List.replicate 15
          { id := 7, prompt := "node".toList, s3Url := "u".toList, downloads := 1,
            userId := some ("u1".toList), createdAt := 5 })
        (some ("node".toList)) =
      noEffects { status := 429, body := .errorBody "Daily limit reached" } :=
  daily_rate_limit_before_work.1 userEnv _ ("node".toList) ("u1".toList)
    rfl (by decide) rfl (by decide) (by decide) (by decide)

/-- C9: the stats route is total: status 200 with the downloads column sum
(0 on an empty table) when the query succeeds, status 500 with count 0 when
it fails, and it never writes. -/
theorem stats_endpoint_total (db : List Template) (b : Bool) :
    (statsGET db b).status = (if b then 200 else 500) ∧
    (statsGET db b).count = (if b then sumDownloads db else 0) ∧
    (statsGET db b).writes = [] := by
  cases b with
  | false => exact ⟨rfl, rfl, rfl⟩
  | true => exact ⟨rfl, by rw [statsGET_ok_count]; simp, rfl⟩

/-- C10: a cache hit, with the database reachable, distinct primary keys and
both hit-path writes succeeding, raises the downloads total the stats route
reports by 2 for a signed-in requester (increment plus a personal copy) and
by 1 for an anonymous one. -/
theorem cache_hit_inflates_downloads (env : Env) (db : List Template) (p : List Char)
    (t : Template)
    (hdb : env.dbOk = true) (hne : p.isEmpty = false)
    (hlen : p.length ≤ MAX_PROMPT_LENGTH)
    (hrl : rateLimitHit env db = false)
    (hlook : cacheLookup db (cleanPrompt p) = some t)
    (hupd : env.hitUpdateOk = true) (hcre : env.hitCreateOk = true)
    (hids : (db.map Template.id).Nodup) :
    (statsGET (applyWrites db (generatePOST env db (some p)).writes) true).count
      = (statsGET db true).count + (if env.userId.isSome then 2 else 1) := by
  have hnl : ¬(MAX_PROMPT_LENGTH < p.length) := Nat.not_lt.mpr hlen
  have hmem : t ∈ db := (cacheLookup_some_spec hlook).1
  have hw : (generatePOST env db (some p)).writes = hitWrites env (cleanPrompt p) t := by
    simp [generatePOST, hne, hnl, hdb, hrl, hlook]
  rw [hw, statsGET_ok_count, statsGET_ok_count]
  unfold hitWrites
  cases huid : env.userId with
  | none =>
    simp only [hupd, if_true, List.append_nil]
    have ha : applyWrites db [DbWrite.incrementDownloads t.id]
        = applyWrite db (.incrementDownloads t.id) := rfl
    rw [ha, sumDownloads_increment, countP_id_eq_one hids hmem]
    simp
  | some u =>
    simp only [hupd, hcre, if_true, List.singleton_append]
    have ha : applyWrites db
        [DbWrite.incrementDownloads t.id,
          DbWrite.insert { id := env.newId, prompt := cleanPrompt p, s3Url := t.s3Url,
                           downloads := 1, userId := some u, createdAt := env.now }]
        = applyWrite db (.incrementDownloads t.id)
            ++ [{ id := env.newId, prompt := cleanPrompt p, s3Url := t.s3Url,
                  downloads := 1, userId := some u, createdAt := env.now }] := rfl
    rw [ha, sumDownloads_append_one, sumDownloads_increment, countP_id_eq_one hids hmem]
    simp

/-- C10 witness: a signed-in hit on a one-row table raises the reported
total by 2. -/
theorem cache_hit_inflates_downloads_witness :
    (statsGET (applyWrites [sampleRow]
        (generatePOST userEnv [sampleRow] (some (" Node ".toList))).writes) true).count
      = (statsGET [sampleRow] true).count + (if userEnv.userId.isSome then 2 else 1) :=
  cache_hit_inflates_downloads userEnv [sampleRow] (" Node ".toList) sampleRow
    rfl (by decide) (by decide) (by decide) (by decide) rfl rfl (by decide)

end BoilerplateGen
